import Mathlib

/-!
Shallow embedding of the Knowledge-Graph core: the three graph view
builders of the graph-transform module (Galaxy / Cluster / Star), the
unit-overview builder of the second graph-data module, and the
recommendation route's scoring/ranking logic.

JS numbers are modelled as `ℚ`, nullable / optional fields as `Option`,
and the kind-prefixed string node ids (`unit-…`, `st-…`, `word-…`) as a
sum type, which is faithful because the three prefixes make the string
encoding injective.
-/

namespace KG

/-- JS `a || b` for strings: the empty string is falsy. -/
def orStr (a b : String) : String := if a = "" then b else a

/-- JS `a || b` where `a` is an optional string (an absent record field or
`null` is falsy, and so is the empty string). -/
def orOpt (a : Option String) (b : String) : String :=
  match a with
  | none => b
  | some s => orStr s b

/-- JS `a || b` where `a` is an optional number: `undefined`, `null` and `0`
are falsy. -/
def orNum (a : Option ℚ) (b : ℚ) : ℚ :=
  match a with
  | none => b
  | some x => if x = 0 then b else x

/-- JS truthiness of a nullable integer field (`null` and `0` are falsy). -/
def truthyInt (a : Option Int) : Bool :=
  match a with
  | none => false
  | some n => n != 0

/-- JS truthiness of a nullable numeric field (`null` and `0` are falsy). -/
def truthyNum (a : Option ℚ) : Bool :=
  match a with
  | none => false
  | some x => x != 0

/-- `UNIT_COLORS` record of the colors module: 15 unit colors. -/
def UNIT_COLORS : String → Option String
  | "A" => some "#E74C3C"
  | "B" => some "#27AE60"
  | "C" => some "#3498DB"
  | "D" => some "#8B4513"
  | "E" => some "#F1C40F"
  | "F" => some "#9B59B6"
  | "G" => some "#E67E22"
  | "H" => some "#1ABC9C"
  | "I" => some "#E91E63"
  | "J" => some "#2196F3"
  | "K" => some "#FF9800"
  | "L" => some "#4CAF50"
  | "M" => some "#C2185B"
  | "N" => some "#00BCD4"
  | "O" => some "#795548"
  | _ => none

/-- `UNIT_ICONS` record of the colors module. -/
def UNIT_ICONS : String → Option String
  | "A" => some "🐪"
  | "B" => some "🌿"
  | "C" => some "👨‍👩‍👧‍👦"
  | "D" => some "🏔️"
  | "E" => some "✨"
  | "F" => some "🕌"
  | "G" => some "🕐"
  | "H" => some "⚖️"
  | "I" => some "👁️"
  | "J" => some "☯️"
  | "K" => some "📖"
  | "L" => some "💎"
  | "M" => some "❤️"
  | "N" => some "🌊"
  | "O" => some "🎨"
  | _ => none

/-- `UNIT_NAMES` record of the colors module. -/
def UNIT_NAMES : String → Option String
  | "A" => some "Animals"
  | "B" => some "Plants"
  | "C" => some "People"
  | "D" => some "Places"
  | "E" => some "Names of Allah"
  | "F" => some "Salah & Worship"
  | "G" => some "Time & Numbers"
  | "H" => some "Character & Ethics"
  | "I" => some "Body & Senses"
  | "J" => some "Opposites"
  | "K" => some "Prophets & People"
  | "L" => some "Virtue Pairs"
  | "M" => some "Heart Actions"
  | "N" => some "Emotions"
  | "O" => some "Colors & Descriptors"
  | _ => none

/-- `RELATIONSHIP_COLORS` record of the colors module. -/
def RELATIONSHIP_COLORS : String → Option String
  | "same_root" => some "#FFD700"
  | "opposite" => some "#4ECDC4"
  | "virtue_pair" => some "#2ECC71"
  | "semantic_similar" => some "#96CEB4"
  | "same_theme" => some "#FFEAA7"
  | "contains" => some "#334155"
  | _ => none

/-- Graph node identifiers. The source builds string ids by prefixing the
entity kind (`unit-` ++ code, `st-` ++ id, `word-` ++ id); the three
prefixes are pairwise distinct, so the encoding is injective and is
modelled by this sum type. `NodeId.render` is the exact string form. -/
inductive NodeId where
  | unit (code : String)
  | st (id : Int)
  | word (id : Int)
deriving DecidableEq

/-- The string id actually stored by the source. -/
def NodeId.render : NodeId → String
  | .unit code => "unit-" ++ code
  | .st id => "st-" ++ toString id
  | .word id => "word-" ++ toString id

/-- Whether an id is a sub-theme id (string form `st-…`); membership links
from a sub-theme to a word are exactly the links with an `st-` source. -/
def NodeId.isSt : NodeId → Bool
  | .st _ => true
  | _ => false

/-- Whether an id is a word id (string form `word-…`). -/
def NodeId.isWord : NodeId → Bool
  | .word _ => true
  | _ => false

/-- The `type` discriminator of a graph node: `"unit" | "sub_theme" | "word"`. -/
inductive NodeType where
  | unit
  | sub_theme
  | word
deriving DecidableEq

/-- `GraphNode` of the graph-transform module. Fields the builders never
write (`x`, `y`, `secondaryUnitCode`) are omitted; `opacity` models the
source's fade-in opacity field (always initialised to 0 by the builders). -/
structure GraphNode where
  id : NodeId
  label : String
  arabicLabel : Option String := none
  type : NodeType
  color : String
  size : ℚ
  unitCode : Option String := none
  emoji : Option String := none
  wordCount : Option ℚ := none
  subThemeCount : Option ℚ := none
  fx : Option ℚ := none
  fy : Option ℚ := none
  opacity : Option ℚ := none
deriving DecidableEq

/-- `GraphLink` of the graph-transform module. -/
structure GraphLink where
  source : NodeId
  target : NodeId
  type : String
  color : String
  width : ℚ
  dashed : Option Bool := none
  curvature : Option ℚ := none
  sharedWordCount : Option ℚ := none
  opacity : Option ℚ := none
deriving DecidableEq

/-- `GraphData` of the graph-transform module. -/
structure GraphData where
  nodes : List GraphNode
  links : List GraphLink
deriving DecidableEq

/-- A `units` row as read by the builders (`code`, `name`, `color`; the
remaining columns are never read). -/
structure Unit where
  code : String
  name : String
  color : String
deriving DecidableEq

/-- A `sub_themes` row as read by the builders (`id`, `label`). -/
structure SubTheme where
  id : Int
  label : String
deriving DecidableEq

/-- A `Word & { sub_theme_id }` row as read by `buildClusterGraph` (display
columns the builder never reads are omitted). -/
structure ClusterWord where
  id : Int
  arabic : String
  transliteration : Option String
  kids_glossary : Option String
  sub_theme_id : Int
deriving DecidableEq

/-- A word-relationship row as passed to `buildClusterGraph`. -/
structure Rel where
  id : Int
  word_id_1 : Int
  word_id_2 : Int
  relationship_type : String
  weight : ℚ
deriving DecidableEq

/-- `CrossUnitConnection` (the unused, nullable `sample_words` field is
omitted). -/
structure CrossUnitConnection where
  unit_code_1 : String
  unit_code_2 : String
  shared_word_count : ℚ
deriving DecidableEq

/-- Level 1: `buildGalaxyGraph`. `wordCounts` models the
`Record<string, number>` argument as a partial lookup. -/
def buildGalaxyGraph (units : List Unit) (wordCounts : String → Option ℚ)
    (crossUnitLinks : List CrossUnitConnection) : GraphData :=
  let nodes : List GraphNode := units.map (fun u =>
    let count := orNum (wordCounts u.code) 0
    { id := .unit u.code
      label := orOpt (UNIT_NAMES u.code) u.name
      type := .unit
      color := orStr u.color (orOpt (UNIT_COLORS u.code) "#888")
      size := max 30 (min 55 (30 + count / 8))
      unitCode := some u.code
      emoji := UNIT_ICONS u.code
      wordCount := some count
      opacity := some 0 })
  let links : List GraphLink := crossUnitLinks.map (fun conn =>
    { source := .unit conn.unit_code_1
      target := .unit conn.unit_code_2
      type := "cross_unit"
      color := "#4A5580"
      width := max 0.5 (min 3 (conn.shared_word_count / 10))
      dashed := some true
      curvature := some 0.3
      sharedWordCount := some conn.shared_word_count
      opacity := some 0 })
  { nodes := nodes, links := links }

/-- The membership link `st-{w.sub_theme_id} → word-{w.id}` pushed for every
word row of `buildClusterGraph`. -/
def clusterWordLink (w : ClusterWord) : GraphLink :=
  { source := .st w.sub_theme_id
    target := .word w.id
    type := "contains"
    color := (RELATIONSHIP_COLORS "contains").getD ""
    width := 0.5
    opacity := some 0 }

/-- The word loop of `buildClusterGraph`: one node per not-yet-seen word id
(the `wordIdSet` set is modelled by `seen`), one membership link per row,
returning the nodes, the links and the final contents of `wordIdSet`. -/
def clusterWordPass (color : String) (unitCode : String) (seen : List Int) :
    List ClusterWord → List GraphNode × List GraphLink × List Int
  | [] => ([], [], seen)
  | w :: ws =>
    if w.id ∈ seen then
      let rest := clusterWordPass color unitCode seen ws
      (rest.1, clusterWordLink w :: rest.2.1, rest.2.2)
    else
      let node : GraphNode :=
        { id := .word w.id
          label := orOpt w.kids_glossary (orOpt w.transliteration "")
          arabicLabel := some w.arabic
          type := .word
          color := color
          size := 6
          unitCode := some unitCode
          opacity := some 0 }
      let rest := clusterWordPass color unitCode (w.id :: seen) ws
      (node :: rest.1, clusterWordLink w :: rest.2.1, rest.2.2)

/-- The relationship link emitted by `buildClusterGraph` for a relationship
row whose both endpoints are present. -/
def clusterRelLink (rel : Rel) : GraphLink :=
  { source := .word rel.word_id_1
    target := .word rel.word_id_2
    type := rel.relationship_type
    color := orOpt (RELATIONSHIP_COLORS rel.relationship_type) "#DFE6E9"
    width := rel.weight * 2
    dashed := some (rel.relationship_type == "opposite" ||
      rel.relationship_type == "semantic_similar")
    opacity := some 0 }

/-- Level 2: `buildClusterGraph`. -/
def buildClusterGraph (unit : Unit) (subThemes : List SubTheme)
    (words : List ClusterWord) (relationships : Option (List Rel)) : GraphData :=
  let color := orStr unit.color (orOpt (UNIT_COLORS unit.code) "#888")
  let centralNode : GraphNode :=
    { id := .unit unit.code
      label := orOpt (UNIT_NAMES unit.code) unit.name
      type := .unit
      color := color
      size := 35
      unitCode := some unit.code
      emoji := UNIT_ICONS unit.code
      wordCount := some (words.length : ℚ)
      subThemeCount := some (subThemes.length : ℚ)
      fx := some 0
      fy := some 0
      opacity := some 0 }
  let stNodes : List GraphNode := subThemes.map (fun st =>
    { id := .st st.id
      label := st.label
      type := .sub_theme
      color := color
      size := 13
      unitCode := some unit.code
      opacity := some 0 })
  let stLinks : List GraphLink := subThemes.map (fun st =>
    { source := .unit unit.code
      target := .st st.id
      type := "contains"
      color := (RELATIONSHIP_COLORS "contains").getD ""
      width := 1.5
      opacity := some 0 })
  let wordPass := clusterWordPass color unit.code [] words
  let relLinks : List GraphLink :=
    match relationships with
    | none => []
    | some rels =>
      (rels.filter (fun rel =>
        rel.word_id_1 ∈ wordPass.2.2 && rel.word_id_2 ∈ wordPass.2.2)).map clusterRelLink
  { nodes := centralNode :: (stNodes ++ wordPass.1)
    links := stLinks ++ wordPass.2.1 ++ relLinks }

/-- The focal word of `WordFocusData` (display-only columns the builder never
reads — `surah_ayah`, `difficulty_score`, `part_of_speech`, `root` — are
omitted). -/
structure FocusWord where
  id : Int
  arabic : String
  transliteration : Option String
  kids_glossary : Option String
deriving DecidableEq

/-- An entry of `WordFocusData.units`. -/
structure UnitRef where
  code : String
  name : String
  color : String
deriving DecidableEq

/-- An entry of `WordFocusData.relationships`. -/
structure StarRel where
  word_id : Int
  arabic : String
  transliteration : Option String
  kids_glossary : Option String
  relationship_type : String
  weight : ℚ
deriving DecidableEq

/-- An entry of `WordFocusData.theme_siblings`. -/
structure Sibling where
  word_id : Int
  arabic : String
  transliteration : Option String
  kids_glossary : Option String
  sub_theme_label : String
  unit_code : String
deriving DecidableEq

/-- `WordFocusData`. -/
structure WordFocusData where
  word : FocusWord
  units : List UnitRef
  relationships : List StarRel
  theme_siblings : List Sibling
deriving DecidableEq

/-- The relationship link pushed for every relationship row of
`buildStarGraph`. -/
def starRelLink (centralId : Int) (rel : StarRel) : GraphLink :=
  { source := .word centralId
    target := .word rel.word_id
    type := rel.relationship_type
    color := orOpt (RELATIONSHIP_COLORS rel.relationship_type) "#DFE6E9"
    width := rel.weight * 2.5
    dashed := some (rel.relationship_type == "opposite" ||
      rel.relationship_type == "semantic_similar")
    opacity := some 0 }

/-- The relationship loop of `buildStarGraph` (inner ring): a node when the
id is not yet in `nodeIds` (modelled by `seen`), a link for every row. -/
def starRelPass (primaryColor : String) (centralId : Int) (seen : List Int) :
    List StarRel → List GraphNode × List GraphLink × List Int
  | [] => ([], [], seen)
  | rel :: rest =>
    if rel.word_id ∈ seen then
      let r := starRelPass primaryColor centralId seen rest
      (r.1, starRelLink centralId rel :: r.2.1, r.2.2)
    else
      let node : GraphNode :=
        { id := .word rel.word_id
          label := orOpt rel.kids_glossary (orOpt rel.transliteration "")
          arabicLabel := some rel.arabic
          type := .word
          color := orOpt (RELATIONSHIP_COLORS rel.relationship_type) primaryColor
          size := 12
          opacity := some 0 }
      let r := starRelPass primaryColor centralId (rel.word_id :: seen) rest
      (node :: r.1, starRelLink centralId rel :: r.2.1, r.2.2)

/-- The `same_theme` link pushed for every (kept) sibling row of
`buildStarGraph`. -/
def starSibLink (centralId : Int) (sib : Sibling) : GraphLink :=
  { source := .word centralId
    target := .word sib.word_id
    type := "same_theme"
    color := (RELATIONSHIP_COLORS "same_theme").getD ""
    width := 0.8
    opacity := some 0 }

/-- The theme-sibling loop of `buildStarGraph` (outer ring). -/
def starSibPass (primaryColor : String) (centralId : Int) (seen : List Int) :
    List Sibling → List GraphNode × List GraphLink × List Int
  | [] => ([], [], seen)
  | sib :: rest =>
    if sib.word_id ∈ seen then
      let r := starSibPass primaryColor centralId seen rest
      (r.1, starSibLink centralId sib :: r.2.1, r.2.2)
    else
      let node : GraphNode :=
        { id := .word sib.word_id
          label := orOpt sib.kids_glossary (orOpt sib.transliteration "")
          arabicLabel := some sib.arabic
          type := .word
          color := orOpt (UNIT_COLORS sib.unit_code) primaryColor
          size := 7
          unitCode := some sib.unit_code
          opacity := some 0 }
      let r := starSibPass primaryColor centralId (sib.word_id :: seen) rest
      (node :: r.1, starSibLink centralId sib :: r.2.1, r.2.2)

/-- Level 3: `buildStarGraph`. -/
def buildStarGraph (focusData : WordFocusData) : GraphData :=
  let primaryColor := orOpt (focusData.units.head?.map (fun u => u.color)) "#888"
  let primaryCode := orOpt (focusData.units.head?.map (fun u => u.code)) "A"
  let centralNode : GraphNode :=
    { id := .word focusData.word.id
      label := orOpt focusData.word.kids_glossary (orOpt focusData.word.transliteration "")
      arabicLabel := some focusData.word.arabic
      type := .word
      color := primaryColor
      size := 25
      unitCode := some primaryCode
      fx := some 0
      fy := some 0
      opacity := some 0 }
  let relPass := starRelPass primaryColor focusData.word.id [focusData.word.id]
    focusData.relationships
  let siblings := focusData.theme_siblings.take 20
  let sibPass := starSibPass primaryColor focusData.word.id relPass.2.2 siblings
  { nodes := centralNode :: (relPass.1 ++ sibPass.1)
    links := relPass.2.1 ++ sibPass.2.1 }

/-!
The second graph-data module (Unit Overview / Unit Detail / legacy Word
Focus). Only `buildUnitOverviewGraph` is needed here; its `GraphNode`
shape differs from the graph-transform module's.
-/

namespace Overview

/-- `GraphNode` of the second graph-data module (the force-layout position
fields `x`, `y`, `fx`, `fy`, never written by `buildUnitOverviewGraph`, are
omitted). -/
structure GraphNode where
  id : NodeId
  label : String
  arabicLabel : Option String := none
  type : NodeType
  color : String
  size : ℚ
  unitCode : Option String := none
deriving DecidableEq

/-- `GraphLink` of the second graph-data module. -/
structure GraphLink where
  source : NodeId
  target : NodeId
  type : String
  color : String
  width : ℚ
  dashed : Option Bool := none
deriving DecidableEq

/-- `GraphData` of the second graph-data module. -/
structure GraphData where
  nodes : List GraphNode
  links : List GraphLink
deriving DecidableEq

/-- Level 1: `buildUnitOverviewGraph` — unit nodes only, no links. -/
def buildUnitOverviewGraph (units : List Unit)
    (wordThemeCounts : String → Option ℚ) : GraphData :=
  let nodes : List GraphNode := units.map (fun u =>
    { id := .unit u.code
      label := u.name
      type := .unit
      color := orStr u.color (orOpt (UNIT_COLORS u.code) "#888")
      size := max 20 (min 50 (orNum (wordThemeCounts u.code) 0 / 2))
      unitCode := some u.code })
  { nodes := nodes, links := [] }

end Overview

/-!
The recommendation route (`GET /api/recommendations`): the in-memory
scoring, ranking, truncation and resolution steps that run after the
database fetches. The fetched row sets (`rootSiblings`, the relationship
rows, the theme siblings, the similar-difficulty rows, and the final
batch word lookup) are parameters.
-/

namespace Recommendations

/-- The focal word row, restricted to the fields the route reads. -/
structure TargetWord where
  id : Int
  root_id : Option Int
  difficulty_score : Option ℚ
deriving DecidableEq

/-- A row of the `get_word_connections` RPC result. -/
structure RelRow where
  word_id : Int
  relationship_type : String
  weight : ℚ
deriving DecidableEq

/-- One value of the `scores` map: key (candidate id), accumulated score and
reason trail. -/
structure ScoreEntry where
  id : Int
  score : ℚ
  reasons : List String
deriving DecidableEq

/-- `addScore`: skip the focal id; otherwise accumulate onto the existing map
entry (a JS `Map.set` on an existing key keeps its insertion position) or
append a fresh entry at the end of the insertion order. The map is modelled
as its insertion-ordered entry list. -/
def addScore (targetId : Int) (scores : List ScoreEntry) (id : Int)
    (score : ℚ) (reason : String) : List ScoreEntry :=
  if id = targetId then scores
  else if scores.any (fun e => e.id == id) then
    scores.map (fun e =>
      if e.id == id then
        { e with score := e.score + score, reasons := e.reasons ++ [reason] }
      else e)
  else scores ++ [{ id := id, score := score, reasons := [reason] }]

/-- The four signal passes of the route, in source order: same root (0.9),
explicit relationships (the edge's own weight), same theme (0.7), similar
difficulty (0.5). The first and last passes are guarded by JS truthiness of
`root_id` / `difficulty_score`. -/
def applySignals (targetWord : TargetWord) (rootSiblings : List Int)
    (rels : List RelRow) (siblings : List Int) (diffWords : List Int) :
    List ScoreEntry :=
  let s1 := if truthyInt targetWord.root_id then
      rootSiblings.foldl (fun m i => addScore targetWord.id m i 0.9 "same_root") []
    else []
  let s2 := rels.foldl
    (fun m r => addScore targetWord.id m r.word_id r.weight r.relationship_type) s1
  let s3 := siblings.foldl
    (fun m i => addScore targetWord.id m i 0.7 "same_theme") s2
  if truthyNum targetWord.difficulty_score then
    diffWords.foldl (fun m i => addScore targetWord.id m i 0.5 "similar_difficulty") s3
  else s3

/-- Insertion step of the stable descending sort. The new element passes over
every entry with a strictly greater score and lands before the first entry
whose score is less than or equal to its own, so earlier-scored entries win
ties — exactly the behaviour of the stable ES2019 `Array.prototype.sort`
with comparator `(a, b) => b.score - a.score`. -/
def insertDesc (x : ScoreEntry) : List ScoreEntry → List ScoreEntry
  | [] => [x]
  | y :: ys => if y.score ≤ x.score then x :: y :: ys else y :: insertDesc x ys

/-- The route's `.sort((a, b) => b[1].score - a[1].score)`: a stable sort by
descending accumulated score. -/
def sortEntries : List ScoreEntry → List ScoreEntry
  | [] => []
  | x :: xs => insertDesc x (sortEntries xs)

/-- JS `Array.prototype.slice(0, e)`: a negative end counts back from the end
of the array. -/
def jsSliceTo (l : List α) (e : Int) : List α :=
  if e < 0 then l.take ((l.length : Int) + e).toNat else l.take e.toNat

/-- A row of the final batch word lookup; only `id` is read by the ranking
logic (the remaining columns ride along into the response). -/
structure WordRow where
  id : Int
deriving DecidableEq

/-- One entry of the response's `recommendations` array. -/
structure Recommendation where
  word : WordRow
  score : ℚ
  reasons : List String
deriving DecidableEq

/-- `new Map(words.map((w) => [w.id, w])).get(id)`: the last row carrying the
id wins. -/
def wordsByIdGet (words : List WordRow) (id : Int) : Option WordRow :=
  words.foldl (fun acc w => if w.id == id then some w else acc) none

/-- The ranking tail of the route: sort the score map's entries, truncate
with `.slice(0, limit)`, return the empty list when nothing remains, and
otherwise resolve each id against the batch lookup, silently dropping
entries whose word is missing (`.filter((r) => r.word)`). -/
def recommendationsOf (targetWord : TargetWord) (rootSiblings : List Int)
    (rels : List RelRow) (siblings : List Int) (diffWords : List Int)
    (limit : Int) (fetchedWords : List WordRow) : List Recommendation :=
  let ranked := jsSliceTo
    (sortEntries (applySignals targetWord rootSiblings rels siblings diffWords)) limit
  if ranked.isEmpty then []
  else ranked.filterMap (fun e =>
    (wordsByIdGet fetchedWords e.id).map (fun w =>
      { word := w, score := e.score, reasons := e.reasons }))

end Recommendations

end KG

namespace KG

/-- The Galaxy node the witness inputs produce (one unit row, no recorded
word counts). -/
def galaxyNodeEx : GraphNode :=
  { id := .unit "A"
    label := orOpt (UNIT_NAMES "A") "Animals"
    type := .unit
    color := orStr "#E74C3C" (orOpt (UNIT_COLORS "A") "#888")
    size := max 30 (min 55 (30 + orNum none 0 / 8))
    unitCode := some "A"
    emoji := UNIT_ICONS "A"
    wordCount := some (orNum none 0)
    opacity := some 0 }

/-- The Unit Overview node the witness inputs produce. -/
def overviewNodeEx : Overview.GraphNode :=
  { id := .unit "A"
    label := "Animals"
    type := .unit
    color := orStr "#E74C3C" (orOpt (UNIT_COLORS "A") "#888")
    size := max 20 (min 50 (orNum none 0 / 2))
    unitCode := some "A" }

end KG

/-! ### Lemmas about the recommendation engine -/

namespace KG.Recommendations

/-- Invariant preservation for a left fold. -/
theorem foldl_invariant {α β : Type} {P : β → Prop} {step : β → α → β}
    (h : ∀ m x, P m → P (step m x)) :
    ∀ (l : List α) (m0 : β), P m0 → P (l.foldl step m0)
  | [], _, h0 => h0
  | x :: xs, m0, h0 => foldl_invariant h xs (step m0 x) (h m0 x h0)

/-- `addScore` never stores the focal id. -/
theorem addScore_ne_target {t : Int} {m : List ScoreEntry} (i : Int) (s : ℚ)
    (r : String) (h : ∀ e ∈ m, e.id ≠ t) :
    ∀ e ∈ addScore t m i s r, e.id ≠ t := by
  intro e he
  unfold addScore at he
  by_cases hit : i = t
  · rw [if_pos hit] at he
    exact h e he
  · rw [if_neg hit] at he
    by_cases hany : m.any (fun e => e.id == i)
    · rw [if_pos hany] at he
      rcases List.mem_map.mp he with ⟨e', he', heq⟩
      subst heq
      by_cases hid : e'.id == i
      · simpa [hid] using h e' he'
      · simpa [hid] using h e' he'
    · rw [if_neg hany] at he
      rcases List.mem_append.mp he with he | he
      · exact h e he
      · have : e = { id := i, score := s, reasons := [r] } := by
          simpa using he
        rw [this]
        exact hit

/-- No entry of the score map built by the four signal passes carries the
focal id. -/
theorem applySignals_ne_target (tw : TargetWord) (rs : List Int)
    (rels : List RelRow) (sibs : List Int) (dws : List Int) :
    ∀ e ∈ applySignals tw rs rels sibs dws, e.id ≠ tw.id := by
  have h1 : ∀ e ∈ (if truthyInt tw.root_id then
      rs.foldl (fun m i => addScore tw.id m i 0.9 "same_root") ([] : List ScoreEntry)
      else []), e.id ≠ tw.id := by
    split
    · exact @foldl_invariant Int (List ScoreEntry) (fun m => ∀ e ∈ m, e.id ≠ tw.id) _
        (fun m i hm => addScore_ne_target i 0.9 "same_root" hm) rs [] (by simp)
    · simp
  have h2 := @foldl_invariant RelRow (List ScoreEntry) (fun m => ∀ e ∈ m, e.id ≠ tw.id) _
    (fun m r hm => addScore_ne_target r.word_id r.weight r.relationship_type hm) rels _ h1
  have h3 := @foldl_invariant Int (List ScoreEntry) (fun m => ∀ e ∈ m, e.id ≠ tw.id) _
    (fun m i hm => addScore_ne_target i 0.7 "same_theme" hm) sibs _ h2
  simp only [applySignals]
  split
  · exact @foldl_invariant Int (List ScoreEntry) (fun m => ∀ e ∈ m, e.id ≠ tw.id) _
      (fun m i hm => addScore_ne_target i 0.5 "similar_difficulty" hm) dws _ h3
  · exact h3

/-- Membership through the stable-insert step. -/
theorem mem_insertDesc {x a : ScoreEntry} :
    ∀ {l : List ScoreEntry}, a ∈ insertDesc x l ↔ a = x ∨ a ∈ l := by
  intro l
  induction l with
  | nil => simp [insertDesc]
  | cons y ys ih =>
    by_cases hc : y.score ≤ x.score
    · simp [insertDesc, hc]
    · simp only [insertDesc, if_neg hc, List.mem_cons, ih]
      tauto

/-- The stable sort neither adds nor loses entries. -/
theorem mem_sortEntries {a : ScoreEntry} :
    ∀ {l : List ScoreEntry}, a ∈ sortEntries l ↔ a ∈ l := by
  intro l
  induction l with
  | nil => simp [sortEntries]
  | cons y ys ih => simp [sortEntries, mem_insertDesc, ih]

/-- Insertion preserves the descending-score invariant. -/
theorem insertDesc_pairwise {x : ScoreEntry} :
    ∀ {l : List ScoreEntry}, l.Pairwise (fun a b => b.score ≤ a.score) →
      (insertDesc x l).Pairwise (fun a b => b.score ≤ a.score) := by
  intro l
  induction l with
  | nil => simp [insertDesc]
  | cons y ys ih =>
    intro h
    rcases List.pairwise_cons.mp h with ⟨hy, hys⟩
    by_cases hc : y.score ≤ x.score
    · rw [insertDesc, if_pos hc]
      refine List.pairwise_cons.mpr ⟨?_, h⟩
      intro z hz
      rcases List.mem_cons.mp hz with rfl | hz
      · exact hc
      · exact le_trans (hy z hz) hc
    · rw [insertDesc, if_neg hc]
      refine List.pairwise_cons.mpr ⟨?_, ih hys⟩
      intro z hz
      rcases mem_insertDesc.mp hz with rfl | hz
      · exact le_of_not_le hc
      · exact hy z hz

/-- The stable sort produces a list whose scores are non-increasing. -/
theorem sortEntries_pairwise :
    ∀ (l : List ScoreEntry), (sortEntries l).Pairwise (fun a b => b.score ≤ a.score)
  | [] => by simp [sortEntries]
  | x :: xs => by
    rw [sortEntries]
    exact insertDesc_pairwise (sortEntries_pairwise xs)

/-- `slice(0, e)` returns a sublist. -/
theorem jsSliceTo_sublist {α : Type} (l : List α) (e : Int) :
    List.Sublist (jsSliceTo l e) l := by
  unfold jsSliceTo
  split
  · exact List.take_sublist _ _
  · exact List.take_sublist _ _

/-- A word resolved from the batch lookup carries the id it was looked up
under. -/
theorem wordsByIdGet_eq_some {i : Int} :
    ∀ (ws : List WordRow) (acc : Option WordRow),
      (∀ w, acc = some w → w.id = i) →
      ∀ w, ws.foldl (fun acc w => if w.id == i then some w else acc) acc = some w → w.id = i
  | [], _, hacc, w, hw => hacc w hw
  | v :: vs, acc, hacc, w, hw => by
    refine wordsByIdGet_eq_some vs (if v.id == i then some v else acc) ?_ w hw
    intro w' hw'
    by_cases hv : v.id == i
    · rw [if_pos hv] at hw'
      cases hw'
      exact beq_iff_eq.mp hv
    · rw [if_neg hv] at hw'
      exact hacc w' hw'

/-- Pairwise relations survive `filterMap` when the extraction respects
them. -/
theorem pairwise_filterMap_of {α β : Type} {R : α → α → Prop} {S : β → β → Prop}
    {f : α → Option β}
    (hf : ∀ a b x y, R a b → f a = some x → f b = some y → S x y) :
    ∀ {l : List α}, l.Pairwise R → (l.filterMap f).Pairwise S := by
  intro l h
  induction h with
  | nil => simp
  | @cons x l hx hl ih =>
    rw [List.filterMap_cons]
    cases hfx : f x with
    | none => exact ih
    | some b =>
      refine List.pairwise_cons.mpr ⟨?_, ih⟩
      intro y hy
      rcases List.mem_filterMap.mp hy with ⟨a, ha, hfa⟩
      exact hf x a b y (hx a ha) hfx hfa

end KG.Recommendations

/-! ### Lemmas about the graph builders -/

namespace KG

/-- The word loop of the cluster builder pushes exactly one membership link
per word row, in row order. -/
theorem clusterWordPass_links (c uc : String) :
    ∀ (seen : List Int) (ws : List ClusterWord),
      (clusterWordPass c uc seen ws).2.1 = ws.map clusterWordLink
  | _, [] => rfl
  | seen, w :: ws => by
    by_cases hw : w.id ∈ seen
    · simp only [clusterWordPass, if_pos hw, List.map_cons]
      rw [clusterWordPass_links c uc seen ws]
    · simp only [clusterWordPass, if_neg hw, List.map_cons]
      rw [clusterWordPass_links c uc (w.id :: seen) ws]

/-- After the word loop, `wordIdSet` holds exactly the previously seen ids
and the ids of the processed rows. -/
theorem clusterWordPass_seen (c uc : String) :
    ∀ (seen : List Int) (ws : List ClusterWord) (i : Int),
      i ∈ (clusterWordPass c uc seen ws).2.2 ↔
        i ∈ seen ∨ i ∈ ws.map (fun w => w.id)
  | _, [], i => by simp [clusterWordPass]
  | seen, w :: ws, i => by
    by_cases hw : w.id ∈ seen
    · simp only [clusterWordPass, if_pos hw, List.map_cons, List.mem_cons]
      rw [clusterWordPass_seen c uc seen ws i]
      constructor
      · tauto
      · rintro (h | rfl | h) <;> tauto
    · simp only [clusterWordPass, if_neg hw, List.map_cons, List.mem_cons]
      rw [clusterWordPass_seen c uc (w.id :: seen) ws i]
      simp only [List.mem_cons]
      tauto

/-- Node multiplicity in the cluster word loop: one node per distinct
not-yet-seen word id, none otherwise. -/
theorem clusterWordPass_nodes_countP (c uc : String) (i : Int) :
    ∀ (seen : List Int) (ws : List ClusterWord),
      List.countP (fun n => n.id == NodeId.word i) (clusterWordPass c uc seen ws).1 =
        if i ∈ seen then 0 else if i ∈ ws.map (fun w => w.id) then 1 else 0
  | seen, [] => by simp [clusterWordPass]
  | seen, w :: ws => by
    by_cases hw : w.id ∈ seen
    · simp only [clusterWordPass, if_pos hw]
      rw [clusterWordPass_nodes_countP c uc i seen ws]
      by_cases hi : i ∈ seen
      · simp [hi]
      · have hne : i ≠ w.id := fun h => hi (h ▸ hw)
        simp [hi, List.mem_cons, hne]
    · simp only [clusterWordPass, if_neg hw, List.countP_cons]
      rw [clusterWordPass_nodes_countP c uc i (w.id :: seen) ws]
      by_cases hiw : i = w.id
      · subst hiw
        simp [hw, List.mem_cons]
      · have : (NodeId.word w.id == NodeId.word i) = false := by
          simp [Ne.symm hiw]
        simp only [this, List.mem_cons, hiw, false_or]
        by_cases hi : i ∈ seen <;> simp [hi, hiw]

/-- Every node pushed by the cluster word loop is a word node of size 6
carrying the id of one of the processed rows. -/
theorem clusterWordPass_nodes_shape (c uc : String) :
    ∀ (seen : List Int) (ws : List ClusterWord),
      ∀ n ∈ (clusterWordPass c uc seen ws).1,
        n.type = NodeType.word ∧ n.size = 6 ∧ ∃ w ∈ ws, n.id = NodeId.word w.id
  | seen, [], n => by simp [clusterWordPass]
  | seen, w :: ws, n => by
    by_cases hw : w.id ∈ seen
    · simp only [clusterWordPass, if_pos hw]
      intro hn
      rcases clusterWordPass_nodes_shape c uc seen ws n hn with ⟨h1, h2, w', hw', h3⟩
      exact ⟨h1, h2, w', List.mem_cons_of_mem w hw', h3⟩
    · simp only [clusterWordPass, if_neg hw, List.mem_cons]
      rintro (rfl | hn)
      · exact ⟨rfl, rfl, w, Or.inl rfl, rfl⟩
      · rcases clusterWordPass_nodes_shape c uc (w.id :: seen) ws n hn with ⟨h1, h2, w', hw', h3⟩
        exact ⟨h1, h2, w', Or.inr hw', h3⟩

/-- The relationship loop of the star builder pushes exactly one link per
relationship row, in row order. -/
theorem starRelPass_links (pc : String) (cid : Int) :
    ∀ (seen : List Int) (rels : List StarRel),
      (starRelPass pc cid seen rels).2.1 = rels.map (starRelLink cid)
  | _, [] => rfl
  | seen, rel :: rels => by
    by_cases hr : rel.word_id ∈ seen
    · simp only [starRelPass, if_pos hr, List.map_cons]
      rw [starRelPass_links pc cid seen rels]
    · simp only [starRelPass, if_neg hr, List.map_cons]
      rw [starRelPass_links pc cid (rel.word_id :: seen) rels]

/-- After the relationship loop, `nodeIds` holds exactly the previously seen
ids and the related word ids. -/
theorem starRelPass_seen (pc : String) (cid : Int) :
    ∀ (seen : List Int) (rels : List StarRel) (i : Int),
      i ∈ (starRelPass pc cid seen rels).2.2 ↔
        i ∈ seen ∨ i ∈ rels.map (fun r => r.word_id)
  | _, [], i => by simp [starRelPass]
  | seen, rel :: rels, i => by
    by_cases hr : rel.word_id ∈ seen
    · simp only [starRelPass, if_pos hr, List.map_cons, List.mem_cons]
      rw [starRelPass_seen pc cid seen rels i]
      constructor
      · tauto
      · rintro (h | rfl | h) <;> tauto
    · simp only [starRelPass, if_neg hr, List.map_cons, List.mem_cons]
      rw [starRelPass_seen pc cid (rel.word_id :: seen) rels i]
      simp only [List.mem_cons]
      tauto

/-- Node multiplicity in the relationship loop: one node per distinct
not-yet-seen related word id, none otherwise. -/
theorem starRelPass_nodes_countP (pc : String) (cid i : Int) :
    ∀ (seen : List Int) (rels : List StarRel),
      List.countP (fun n => n.id == NodeId.word i) (starRelPass pc cid seen rels).1 =
        if i ∈ seen then 0 else if i ∈ rels.map (fun r => r.word_id) then 1 else 0
  | seen, [] => by simp [starRelPass]
  | seen, rel :: rels => by
    by_cases hr : rel.word_id ∈ seen
    · simp only [starRelPass, if_pos hr]
      rw [starRelPass_nodes_countP pc cid i seen rels]
      by_cases hi : i ∈ seen
      · simp [hi]
      · have hne : i ≠ rel.word_id := fun h => hi (h ▸ hr)
        simp [hi, List.mem_cons, hne]
    · simp only [starRelPass, if_neg hr, List.countP_cons]
      rw [starRelPass_nodes_countP pc cid i (rel.word_id :: seen) rels]
      by_cases hiw : i = rel.word_id
      · subst hiw
        simp [hr, List.mem_cons]
      · have : (NodeId.word rel.word_id == NodeId.word i) = false := by
          simp [Ne.symm hiw]
        simp only [this, List.mem_cons, hiw, false_or]
        by_cases hi : i ∈ seen <;> simp [hi, hiw]

/-- Every node pushed by the relationship loop is a word node of size 12
carrying a related word id. -/
theorem starRelPass_nodes_shape (pc : String) (cid : Int) :
    ∀ (seen : List Int) (rels : List StarRel),
      ∀ n ∈ (starRelPass pc cid seen rels).1,
        n.type = NodeType.word ∧ n.size = 12 ∧ ∃ r ∈ rels, n.id = NodeId.word r.word_id
  | seen, [], n => by simp [starRelPass]
  | seen, rel :: rels, n => by
    by_cases hr : rel.word_id ∈ seen
    · simp only [starRelPass, if_pos hr]
      intro hn
      rcases starRelPass_nodes_shape pc cid seen rels n hn with ⟨h1, h2, r, hr', h3⟩
      exact ⟨h1, h2, r, List.mem_cons_of_mem rel hr', h3⟩
    · simp only [starRelPass, if_neg hr, List.mem_cons]
      rintro (rfl | hn)
      · exact ⟨rfl, rfl, rel, Or.inl rfl, rfl⟩
      · rcases starRelPass_nodes_shape pc cid (rel.word_id :: seen) rels n hn with ⟨h1, h2, r, hr', h3⟩
        exact ⟨h1, h2, r, Or.inr hr', h3⟩

/-- The sibling loop pushes exactly one `same_theme` link per kept sibling
row, in row order. -/
theorem starSibPass_links (pc : String) (cid : Int) :
    ∀ (seen : List Int) (sibs : List Sibling),
      (starSibPass pc cid seen sibs).2.1 = sibs.map (starSibLink cid)
  | _, [] => rfl
  | seen, sib :: sibs => by
    by_cases hs : sib.word_id ∈ seen
    · simp only [starSibPass, if_pos hs, List.map_cons]
      rw [starSibPass_links pc cid seen sibs]
    · simp only [starSibPass, if_neg hs, List.map_cons]
      rw [starSibPass_links pc cid (sib.word_id :: seen) sibs]

/-- Node multiplicity in the sibling loop: one node per distinct
not-yet-seen sibling word id, none otherwise. -/
theorem starSibPass_nodes_countP (pc : String) (cid i : Int) :
    ∀ (seen : List Int) (sibs : List Sibling),
      List.countP (fun n => n.id == NodeId.word i) (starSibPass pc cid seen sibs).1 =
        if i ∈ seen then 0 else if i ∈ sibs.map (fun s => s.word_id) then 1 else 0
  | seen, [] => by simp [starSibPass]
  | seen, sib :: sibs => by
    by_cases hs : sib.word_id ∈ seen
    · simp only [starSibPass, if_pos hs]
      rw [starSibPass_nodes_countP pc cid i seen sibs]
      by_cases hi : i ∈ seen
      · simp [hi]
      · have hne : i ≠ sib.word_id := fun h => hi (h ▸ hs)
        simp [hi, List.mem_cons, hne]
    · simp only [starSibPass, if_neg hs, List.countP_cons]
      rw [starSibPass_nodes_countP pc cid i (sib.word_id :: seen) sibs]
      by_cases hiw : i = sib.word_id
      · subst hiw
        simp [hs, List.mem_cons]
      · have : (NodeId.word sib.word_id == NodeId.word i) = false := by
          simp [Ne.symm hiw]
        simp only [this, List.mem_cons, hiw, false_or]
        by_cases hi : i ∈ seen <;> simp [hi, hiw]

/-- Every node pushed by the sibling loop is a word node of size 7. -/
theorem starSibPass_nodes_shape (pc : String) (cid : Int) :
    ∀ (seen : List Int) (sibs : List Sibling),
      ∀ n ∈ (starSibPass pc cid seen sibs).1,
        n.type = NodeType.word ∧ n.size = 7 ∧ ∃ s ∈ sibs, n.id = NodeId.word s.word_id
  | seen, [], n => by simp [starSibPass]
  | seen, sib :: sibs, n => by
    by_cases hs : sib.word_id ∈ seen
    · simp only [starSibPass, if_pos hs]
      intro hn
      rcases starSibPass_nodes_shape pc cid seen sibs n hn with ⟨h1, h2, s', hs', h3⟩
      exact ⟨h1, h2, s', List.mem_cons_of_mem sib hs', h3⟩
    · simp only [starSibPass, if_neg hs, List.mem_cons]
      rintro (rfl | hn)
      · exact ⟨rfl, rfl, sib, Or.inl rfl, rfl⟩
      · rcases starSibPass_nodes_shape pc cid (sib.word_id :: seen) sibs n hn with ⟨h1, h2, s', hs', h3⟩
        exact ⟨h1, h2, s', Or.inr hs', h3⟩

/-- The sibling loop renders at most one node per input row. -/
theorem starSibPass_nodes_length (pc : String) (cid : Int) :
    ∀ (seen : List Int) (sibs : List Sibling),
      (starSibPass pc cid seen sibs).1.length ≤ sibs.length
  | seen, [] => by simp [starSibPass]
  | seen, sib :: sibs => by
    by_cases hs : sib.word_id ∈ seen
    · simp only [starSibPass, if_pos hs, List.length_cons]
      exact le_trans (starSibPass_nodes_length pc cid seen sibs) (Nat.le_succ _)
    · simp only [starSibPass, if_neg hs, List.length_cons]
      exact Nat.succ_le_succ (starSibPass_nodes_length pc cid (sib.word_id :: seen) sibs)

end KG


/-! ### Claim theorems -/

open KG KG.Recommendations

/-- Claim C2, counterexample: two candidates end with the equal score 0.8,
yet the output lists candidate 5 before candidate 3 — the sort has no
ascending-id tiebreak; the stable sort keeps first-scored-first order. -/
theorem C2_counterexample :
    (recommendationsOf ⟨1, none, none⟩ [] [⟨5, "opposite", 0.8⟩, ⟨3, "opposite", 0.8⟩]
      [] [] 10 [⟨3⟩, ⟨5⟩]).map (fun r => (r.word.id, r.score)) = [(5, 0.8), (3, 0.8)] := by
  simp [recommendationsOf, applySignals, addScore, sortEntries, insertDesc, jsSliceTo,
    wordsByIdGet, truthyInt, truthyNum]

/-- Claim C2 (amended): the engine sorts candidates by descending accumulated
score — the returned scores are non-increasing — but ties are broken by the
stable sort's first-scored-first order, not by ascending candidate id;
the function is deterministic on identical inputs. -/
theorem C2_sort_amended (tw : TargetWord) (rs : List Int) (rels : List RelRow)
    (sibs dws : List Int) (lim : Int) (fw : List WordRow) :
    ((recommendationsOf tw rs rels sibs dws lim fw).map (fun r => r.score)).Pairwise
      (fun a b => b ≤ a) := by
  rw [List.pairwise_map]
  simp only [recommendationsOf]
  split
  · simp
  · exact pairwise_filterMap_of
      (fun a b x y hab hax hby => by
        rcases Option.map_eq_some'.mp hax with ⟨wa, _, rfl⟩
        rcases Option.map_eq_some'.mp hby with ⟨wb, _, rfl⟩
        simpa using hab)
      ((sortEntries_pairwise _).sublist (jsSliceTo_sublist _ _))

/-- Claim C6: the recommendation output never contains the focal item id —
every entry's resolved word has an id different from the focal id. -/
theorem C6_no_self_recommendation (tw : TargetWord) (rs : List Int) (rels : List RelRow)
    (sibs dws : List Int) (lim : Int) (fw : List WordRow) :
    ∀ r ∈ recommendationsOf tw rs rels sibs dws lim fw, r.word.id ≠ tw.id := by
  intro r hr
  simp only [recommendationsOf] at hr
  split at hr
  · simp at hr
  · rcases List.mem_filterMap.mp hr with ⟨e, he, hfe⟩
    rcases Option.map_eq_some'.mp hfe with ⟨w, hw, hrw⟩
    have hwid : w.id = e.id := by
      rw [wordsByIdGet] at hw
      exact wordsByIdGet_eq_some fw none (by simp) w hw
    have he' : e ∈ applySignals tw rs rels sibs dws :=
      mem_sortEntries.mp ((jsSliceTo_sublist _ _).subset he)
    have hne := applySignals_ne_target tw rs rels sibs dws e he'
    rw [← hrw]
    simpa [hwid] using hne

/-- Witness for C6 at a concrete input: word 2 is recommended for focal word
1 and indeed differs from it. -/
theorem C6_no_self_recommendation_witness :
    ({ word := ⟨2⟩, score := 0.8, reasons := ["opposite"] } : Recommendation).word.id ≠
      (⟨1, none, none⟩ : TargetWord).id :=
  C6_no_self_recommendation ⟨1, none, none⟩ [] [⟨2, "opposite", 0.8⟩] [] [] 10 [⟨2⟩]
    { word := ⟨2⟩, score := 0.8, reasons := ["opposite"] }
    (by simp [recommendationsOf, applySignals, addScore, sortEntries, insertDesc, jsSliceTo,
      wordsByIdGet, truthyInt, truthyNum])

/-- Claim C7, counterexample: with limit = -1 (≤ 0) and two scored
candidates, the result has one entry — JS `slice(0, -1)` drops from the end
instead of returning an empty list. -/
theorem C7_counterexample :
    (recommendationsOf ⟨1, none, none⟩ [] [⟨5, "opposite", 0.8⟩, ⟨3, "opposite", 0.8⟩]
      [] [] (-1) [⟨3⟩, ⟨5⟩]).length = 1 := by
  simp [recommendationsOf, applySignals, addScore, sortEntries, insertDesc, jsSliceTo,
    wordsByIdGet, truthyInt, truthyNum]

/-- Claim C7 (amended): a limit of exactly 0 yields an empty recommendation
list, not an error; a negative limit instead drops that many entries from
the end of the ranked list (JS slice semantics), which can be non-empty. -/
theorem C7_limit_amended (tw : TargetWord) (rs : List Int) (rels : List RelRow)
    (sibs dws : List Int) (fw : List WordRow) :
    recommendationsOf tw rs rels sibs dws 0 fw = [] := by
  simp [recommendationsOf, jsSliceTo]

/-- Claim C1, counterexample: the Galaxy (Overview) builder emits its
cross-unit shared-membership bridge link with `dashed: true` although its
kind is `cross_unit`, so "dashed iff kind ∈ {opposite, semantic_similar}"
fails for that view. -/
theorem C1_counterexample :
    ((buildGalaxyGraph [⟨"A", "Animals", "#E74C3C"⟩] (fun _ => none) [⟨"A", "B", 10⟩]).links.all
      (fun l => decide (l.dashed = some true) ==
        (l.type == "opposite" || l.type == "semantic_similar"))) = false := by
  simp [buildGalaxyGraph]

/-- Claim C1 (amended): in the Cluster and Star views a link's dashed flag is
`some true` exactly when its kind is `opposite` or `semantic_similar`
(structural and same-theme links leave it absent), while every Galaxy
(Overview) bridge link is of kind `cross_unit` and always dashed. -/
theorem C1_dashed_amended :
    (∀ (u : KG.Unit) (sts : List SubTheme) (ws : List ClusterWord)
        (rels : Option (List Rel)) (l : GraphLink),
        l ∈ (buildClusterGraph u sts ws rels).links →
        (l.dashed = some true ↔ (l.type = "opposite" ∨ l.type = "semantic_similar"))) ∧
    (∀ (fd : WordFocusData) (l : GraphLink),
        l ∈ (buildStarGraph fd).links →
        (l.dashed = some true ↔ (l.type = "opposite" ∨ l.type = "semantic_similar"))) ∧
    (∀ (units : List KG.Unit) (wc : String → Option ℚ) (cls : List CrossUnitConnection)
        (l : GraphLink), l ∈ (buildGalaxyGraph units wc cls).links →
        l.dashed = some true ∧ l.type = "cross_unit") := by
  refine ⟨?_, ?_, ?_⟩
  · intro u sts ws rels l hl
    cases rels with
    | none =>
      simp only [buildClusterGraph, List.append_nil, List.mem_append] at hl
      rcases hl with hl | hl
      · rcases List.mem_map.mp hl with ⟨st, _, rfl⟩
        simp
      · rw [clusterWordPass_links] at hl
        rcases List.mem_map.mp hl with ⟨w, _, rfl⟩
        simp [clusterWordLink]
    | some rs =>
      simp only [buildClusterGraph, List.mem_append] at hl
      rcases hl with (hl | hl) | hl
      · rcases List.mem_map.mp hl with ⟨st, _, rfl⟩
        simp
      · rw [clusterWordPass_links] at hl
        rcases List.mem_map.mp hl with ⟨w, _, rfl⟩
        simp [clusterWordLink]
      · rcases List.mem_map.mp hl with ⟨rel, _, rfl⟩
        simp [clusterRelLink]
  · intro fd l hl
    simp only [buildStarGraph, List.mem_append] at hl
    rcases hl with hl | hl
    · rw [starRelPass_links] at hl
      rcases List.mem_map.mp hl with ⟨rel, _, rfl⟩
      simp [starRelLink]
    · rw [starSibPass_links] at hl
      rcases List.mem_map.mp hl with ⟨sib, _, rfl⟩
      simp [starSibLink]
  · intro units wc cls l hl
    simp only [buildGalaxyGraph] at hl
    rcases List.mem_map.mp hl with ⟨conn, _, rfl⟩
    exact ⟨rfl, rfl⟩

/-- Witness for the amended C1: a concrete `opposite` relationship link of a
Cluster view is dashed exactly as its kind requires. -/
theorem C1_dashed_amended_witness :
    (clusterRelLink ⟨1, 100, 101, "opposite", 1⟩).dashed = some true ↔
      ((clusterRelLink ⟨1, 100, 101, "opposite", 1⟩).type = "opposite" ∨
        (clusterRelLink ⟨1, 100, 101, "opposite", 1⟩).type = "semantic_similar") :=
  C1_dashed_amended.1 ⟨"A", "Animals", "#E74C3C"⟩ []
    [⟨100, "ا", none, none, 10⟩, ⟨101, "ب", none, none, 10⟩]
    (some [⟨1, 100, 101, "opposite", 1⟩]) (clusterRelLink ⟨1, 100, 101, "opposite", 1⟩)
    (by simp [buildClusterGraph, clusterWordPass, clusterWordLink])

/-- Claim C4: in every Item Focus graph the focal item id occurs on exactly
one node (the central one — never again as a relation or group-mate node),
and at most 20 group-mate (size-7) nodes are rendered. -/
theorem C4_star_focal_once_and_cap (fd : WordFocusData) :
    List.countP (fun n => n.id == NodeId.word fd.word.id) (buildStarGraph fd).nodes = 1 ∧
    List.countP (fun n => n.size == 7) (buildStarGraph fd).nodes ≤ 20 := by
  constructor
  · simp only [buildStarGraph]
    rw [List.countP_cons, List.countP_append]
    rw [starRelPass_nodes_countP, starSibPass_nodes_countP]
    have hseen : fd.word.id ∈ (starRelPass
        (orOpt (fd.units.head?.map (fun u => u.color)) "#888") fd.word.id
        [fd.word.id] fd.relationships).2.2 := by
      rw [starRelPass_seen]
      simp
    simp [hseen]
  · simp only [buildStarGraph]
    rw [List.countP_cons, List.countP_append]
    have h1 : List.countP (fun n => n.size == 7) (starRelPass
        (orOpt (fd.units.head?.map (fun u => u.color)) "#888") fd.word.id
        [fd.word.id] fd.relationships).1 = 0 := by
      refine List.countP_eq_zero.mpr ?_
      intro n hn
      have h12 := (starRelPass_nodes_shape _ _ _ _ n hn).2.1
      simp [h12]
    have h3 : List.countP (fun n => n.size == 7) (starSibPass
        (orOpt (fd.units.head?.map (fun u => u.color)) "#888") fd.word.id
        (starRelPass (orOpt (fd.units.head?.map (fun u => u.color)) "#888") fd.word.id
          [fd.word.id] fd.relationships).2.2 (fd.theme_siblings.take 20)).1 ≤ 20 :=
      le_trans (List.countP_le_length _)
        (le_trans (starSibPass_nodes_length _ _ _ _)
          (by rw [List.length_take]; exact min_le_left _ _))
    have hc : (((25 : ℚ) == 7)) = false := by simp
    rw [h1, hc]
    simpa using h3

/-- Two Boolean predicates that agree on a list count the same elements. -/
theorem countP_ext {α : Type} (p q : α → Bool) :
    ∀ (l : List α), (∀ a ∈ l, p a = q a) → List.countP p l = List.countP q l
  | [], _ => rfl
  | a :: l, h => by
    rw [List.countP_cons, List.countP_cons, h a (List.mem_cons_self a l),
      countP_ext p q l (fun b hb => h b (List.mem_cons_of_mem a hb))]

/-- Claim C5, counterexample: word 2 is both a direct relation and a theme
sibling of focal word 1, yet the Star builder still emits the `same_theme`
link to the center alongside the relationship link — same-grouping links are
not deduplicated away. -/
theorem C5_counterexample :
    ((buildStarGraph
      { word := ⟨1, "قمر", none, none⟩
        units := []
        relationships := [⟨2, "شمس", none, none, "opposite", 1⟩]
        theme_siblings := [⟨2, "شمس", none, none, "sky", "A"⟩] }).links.map
          (fun l => (l.source, l.target, l.type))) =
      [(NodeId.word 1, NodeId.word 2, "opposite"),
       (NodeId.word 1, NodeId.word 2, "same_theme")] := by
  simp [buildStarGraph, starRelPass, starSibPass, starRelLink, starSibLink]

/-- Claim C5 (amended): an Item that is both a direct relation and a kept
group-mate is rendered exactly once, as a relation node (size 12), but link
deduplication does not happen: at least one same-grouping (`same_theme`)
link to the center is still emitted for it. -/
theorem C5_dedup_amended (fd : WordFocusData) (i : Int)
    (hrel : i ∈ fd.relationships.map (fun r => r.word_id))
    (hsib : i ∈ (fd.theme_siblings.take 20).map (fun s => s.word_id))
    (hne : i ≠ fd.word.id) :
    List.countP (fun n => n.id == NodeId.word i) (buildStarGraph fd).nodes = 1 ∧
    (∃ n ∈ (buildStarGraph fd).nodes, n.id = NodeId.word i ∧ n.size = 12) ∧
    1 ≤ List.countP (fun l => l.type == "same_theme" && l.target == NodeId.word i)
      (buildStarGraph fd).links := by
  refine ⟨?_, ?_, ?_⟩
  · simp only [buildStarGraph]
    rw [List.countP_cons, List.countP_append, starRelPass_nodes_countP,
      starSibPass_nodes_countP]
    have h2 : i ∈ (starRelPass (orOpt (fd.units.head?.map (fun u => u.color)) "#888")
        fd.word.id [fd.word.id] fd.relationships).2.2 := by
      rw [starRelPass_seen]
      exact Or.inr hrel
    simp [h2, hrel, hne, Ne.symm hne]
  · have hcnt : List.countP (fun n => n.id == NodeId.word i)
        (starRelPass (orOpt (fd.units.head?.map (fun u => u.color)) "#888")
          fd.word.id [fd.word.id] fd.relationships).1 = 1 := by
      rw [starRelPass_nodes_countP]
      simp [hne, hrel]
    have hpos : 0 < List.countP (fun n => n.id == NodeId.word i)
        (starRelPass (orOpt (fd.units.head?.map (fun u => u.color)) "#888")
          fd.word.id [fd.word.id] fd.relationships).1 := by
      rw [hcnt]
      exact Nat.one_pos
    rcases List.countP_pos_iff.mp hpos with ⟨n, hn, hpred⟩
    refine ⟨n, ?_, beq_iff_eq.mp hpred, (starRelPass_nodes_shape _ _ _ _ n hn).2.1⟩
    simp only [buildStarGraph]
    exact List.mem_cons_of_mem _ (List.mem_append_left _ hn)
  · rcases List.mem_map.mp hsib with ⟨s, hs, hsid⟩
    have hpos : 0 < List.countP (fun l => l.type == "same_theme" &&
        l.target == NodeId.word i)
        ((fd.theme_siblings.take 20).map (starSibLink fd.word.id)) := by
      refine List.countP_pos_iff.mpr ⟨starSibLink fd.word.id s, List.mem_map.mpr ⟨s, hs, rfl⟩, ?_⟩
      simp [starSibLink, hsid]
    simp only [buildStarGraph]
    rw [List.countP_append, starSibPass_links]
    exact le_trans hpos (Nat.le_add_left _ _)

/-- Witness for the amended C5 at a concrete input: word 2 is related to and
a group-mate of focal word 1; it gets one node, of size 12, and still a
same-theme link. -/
theorem C5_dedup_amended_witness :
    List.countP (fun n => n.id == NodeId.word 2)
      (buildStarGraph
        { word := ⟨1, "قمر", none, none⟩
          units := []
          relationships := [⟨2, "شمس", none, none, "opposite", 1⟩]
          theme_siblings := [⟨2, "شمس", none, none, "sky", "A"⟩] }).nodes = 1 ∧
    (∃ n ∈ (buildStarGraph
        { word := ⟨1, "قمر", none, none⟩
          units := []
          relationships := [⟨2, "شمس", none, none, "opposite", 1⟩]
          theme_siblings := [⟨2, "شمس", none, none, "sky", "A"⟩] }).nodes,
      n.id = NodeId.word 2 ∧ n.size = 12) ∧
    1 ≤ List.countP (fun l => l.type == "same_theme" && l.target == NodeId.word 2)
      (buildStarGraph
        { word := ⟨1, "قمر", none, none⟩
          units := []
          relationships := [⟨2, "شمس", none, none, "opposite", 1⟩]
          theme_siblings := [⟨2, "شمس", none, none, "sky", "A"⟩] }).links :=
  C5_dedup_amended
    { word := ⟨1, "قمر", none, none⟩
      units := []
      relationships := [⟨2, "شمس", none, none, "opposite", 1⟩]
      theme_siblings := [⟨2, "شمس", none, none, "sky", "A"⟩] }
    2 (by simp) (by simp) (by decide)

/-- Claim C10: Star-view deduplication applies to nodes only — a candidate id
occurring in several kept sibling rows gets exactly one node, while one
`same_theme` link to the center is emitted per kept sibling row (duplicate
parallel links). Relationship rows are assumed not to carry the reserved
`same_theme` kind. -/
theorem C10_link_dedup (fd : WordFocusData) (i : Int)
    (hnost : ∀ r ∈ fd.relationships, r.relationship_type ≠ "same_theme") :
    (i ∈ (fd.theme_siblings.take 20).map (fun s => s.word_id) →
      List.countP (fun n => n.id == NodeId.word i) (buildStarGraph fd).nodes = 1) ∧
    List.countP (fun l => l.type == "same_theme" && l.target == NodeId.word i)
        (buildStarGraph fd).links =
      List.countP (fun s => s.word_id == i) (fd.theme_siblings.take 20) := by
  constructor
  · intro hins
    replace hins : i ∈ List.take 20 (List.map (fun s => s.word_id) fd.theme_siblings) := by
      simpa [List.map_take] using hins
    simp only [buildStarGraph]
    rw [List.countP_cons, List.countP_append, starRelPass_nodes_countP,
      starSibPass_nodes_countP]
    by_cases hic : i = fd.word.id
    · subst hic
      have h2 : fd.word.id ∈ (starRelPass (orOpt (fd.units.head?.map (fun u => u.color)) "#888")
          fd.word.id [fd.word.id] fd.relationships).2.2 := by
        rw [starRelPass_seen]
        exact Or.inl (by simp)
      simp [h2]
    · by_cases hirel : i ∈ fd.relationships.map (fun r => r.word_id)
      · have h2 : i ∈ (starRelPass (orOpt (fd.units.head?.map (fun u => u.color)) "#888")
            fd.word.id [fd.word.id] fd.relationships).2.2 := by
          rw [starRelPass_seen]
          exact Or.inr hirel
        simp [hic, Ne.symm hic, h2, hirel]
      · have h2 : i ∉ (starRelPass (orOpt (fd.units.head?.map (fun u => u.color)) "#888")
            fd.word.id [fd.word.id] fd.relationships).2.2 := by
          rw [starRelPass_seen]
          simp [hic, hirel]
        simp [hic, Ne.symm hic, h2, hirel, hins]
  · simp only [buildStarGraph]
    rw [List.countP_append, starRelPass_links, starSibPass_links]
    have hrel0 : List.countP (fun l => l.type == "same_theme" && l.target == NodeId.word i)
        (fd.relationships.map (starRelLink fd.word.id)) = 0 := by
      refine List.countP_eq_zero.mpr ?_
      intro l hl
      rcases List.mem_map.mp hl with ⟨r, hr, rfl⟩
      simp [starRelLink, hnost r hr]
    have hsibeq : List.countP (fun l => l.type == "same_theme" && l.target == NodeId.word i)
        ((fd.theme_siblings.take 20).map (starSibLink fd.word.id)) =
        List.countP (fun s => s.word_id == i) (fd.theme_siblings.take 20) := by
      rw [List.countP_map]
      refine countP_ext _ _ _ ?_
      intro s _
      by_cases h : s.word_id = i
      · simp [starSibLink, h]
      · simp [starSibLink, h]
    rw [hrel0, hsibeq]
    simp

/-- Witness for C10: focal word 1 shares two sub-themes with word 2 — the
graph holds one node for word 2 and two parallel same-theme links. -/
theorem C10_link_dedup_witness :
    ((2 : Int) ∈
      (({ word := ⟨1, "قمر", none, none⟩, units := [], relationships := [],
          theme_siblings := [⟨2, "شمس", none, none, "s1", "A"⟩,
            ⟨2, "شمس", none, none, "s2", "A"⟩] } : WordFocusData).theme_siblings.take 20).map
        (fun s => s.word_id) →
      List.countP (fun n => n.id == NodeId.word 2)
        (buildStarGraph
          { word := ⟨1, "قمر", none, none⟩, units := [], relationships := [],
            theme_siblings := [⟨2, "شمس", none, none, "s1", "A"⟩,
              ⟨2, "شمس", none, none, "s2", "A"⟩] }).nodes = 1) ∧
    List.countP (fun l => l.type == "same_theme" && l.target == NodeId.word 2)
        (buildStarGraph
          { word := ⟨1, "قمر", none, none⟩, units := [], relationships := [],
            theme_siblings := [⟨2, "شمس", none, none, "s1", "A"⟩,
              ⟨2, "شمس", none, none, "s2", "A"⟩] }).links =
      List.countP (fun s => s.word_id == 2)
        (({ word := ⟨1, "قمر", none, none⟩, units := [], relationships := [],
            theme_siblings := [⟨2, "شمس", none, none, "s1", "A"⟩,
              ⟨2, "شمس", none, none, "s2", "A"⟩] } : WordFocusData).theme_siblings.take 20) :=
  C10_link_dedup
    { word := ⟨1, "قمر", none, none⟩, units := [], relationships := [],
      theme_siblings := [⟨2, "شمس", none, none, "s1", "A"⟩,
        ⟨2, "شمس", none, none, "s2", "A"⟩] }
    2 (by simp)

/-- Distinct id kinds never compare equal: sub-theme vs word. -/
@[simp] theorem beq_st_word (a b : Int) : (NodeId.st a == NodeId.word b) = false := rfl

/-- Distinct id kinds never compare equal: unit vs word. -/
@[simp] theorem beq_unit_word (c : String) (b : Int) :
    (NodeId.unit c == NodeId.word b) = false := rfl

/-- Word ids compare equal exactly when the raw ids do. -/
@[simp] theorem beq_word_word (a b : Int) :
    (NodeId.word a == NodeId.word b) = (a == b) := by
  by_cases h : a = b
  · simp [h]
  · simp [h]

/-- `isSt` on each constructor. -/
@[simp] theorem isSt_unit (c : String) : (NodeId.unit c).isSt = false := rfl

/-- `isSt` on each constructor. -/
@[simp] theorem isSt_st (a : Int) : (NodeId.st a).isSt = true := rfl

/-- `isSt` on each constructor. -/
@[simp] theorem isSt_word (a : Int) : (NodeId.word a).isSt = false := rfl

/-- `isWord` on each constructor. -/
@[simp] theorem isWord_unit (c : String) : (NodeId.unit c).isWord = false := rfl

/-- `isWord` on each constructor. -/
@[simp] theorem isWord_st (a : Int) : (NodeId.st a).isWord = false := rfl

/-- `isWord` on each constructor. -/
@[simp] theorem isWord_word (a : Int) : (NodeId.word a).isWord = true := rfl

/-- Claim C3: in every Group Detail (Cluster) graph the Item (word) nodes are
exactly one per distinct item id of the supplied membership rows — no
duplicates, no omissions — and one membership (sub-theme → word) link is
emitted per membership row, so an item in two sub-themes gets one node but
two links. -/
theorem C3_item_nodes (u : KG.Unit) (sts : List SubTheme) (ws : List ClusterWord)
    (rels : Option (List Rel)) :
    (∀ i : Int, List.countP (fun n => n.id == NodeId.word i)
        (buildClusterGraph u sts ws rels).nodes =
      if i ∈ ws.map (fun w => w.id) then 1 else 0) ∧
    (∀ n ∈ (buildClusterGraph u sts ws rels).nodes, n.type = NodeType.word →
      ∃ w ∈ ws, n.id = NodeId.word w.id) ∧
    (∀ i : Int, List.countP (fun l => l.source.isSt && l.target == NodeId.word i)
        (buildClusterGraph u sts ws rels).links =
      List.countP (fun w => w.id == i) ws) := by
  refine ⟨?_, ?_, ?_⟩
  · intro i
    simp only [buildClusterGraph]
    rw [List.countP_cons, List.countP_append, clusterWordPass_nodes_countP,
      List.countP_map]
    simp
  · intro n hn htype
    simp only [buildClusterGraph, List.mem_cons, List.mem_append] at hn
    rcases hn with rfl | hn | hn
    · simp at htype
    · rcases List.mem_map.mp hn with ⟨st, _, rfl⟩
      simp at htype
    · exact (clusterWordPass_nodes_shape _ _ _ _ n hn).2.2
  · intro i
    cases rels with
    | none =>
      simp only [buildClusterGraph, List.append_nil]
      rw [List.countP_append, clusterWordPass_links, List.countP_map, List.countP_map]
      simp [Function.comp_def, clusterWordLink]
    | some rs =>
      simp only [buildClusterGraph]
      rw [List.countP_append, List.countP_append, clusterWordPass_links,
        List.countP_map, List.countP_map, List.countP_map]
      simp [Function.comp_def, clusterWordLink, clusterRelLink]

/-- Witness for C3: the single membership row yields a word node whose id is
that row's item id. -/
theorem C3_item_nodes_witness :
    ∃ w ∈ [(⟨100, "ا", none, some "moon", 10⟩ : ClusterWord)],
      ({ id := NodeId.word 100, label := "moon", arabicLabel := some "ا",
         type := NodeType.word, color := "#E74C3C", size := 6,
         unitCode := some "A", opacity := some 0 } : GraphNode).id = NodeId.word w.id :=
  (C3_item_nodes ⟨"A", "Animals", "#E74C3C"⟩ [⟨10, "s1"⟩]
    [⟨100, "ا", none, some "moon", 10⟩] none).2.1
    { id := NodeId.word 100, label := "moon", arabicLabel := some "ا",
      type := NodeType.word, color := "#E74C3C", size := 6,
      unitCode := some "A", opacity := some 0 }
    (by simp [buildClusterGraph, clusterWordPass, orStr, orOpt, UNIT_COLORS, UNIT_NAMES,
      UNIT_ICONS]) rfl

/-- Claim C8: a Cluster-view relationship row becomes a link exactly when both
endpoint items are present in the view's item set (the word-to-word link
count equals the count of rows with both endpoints present); rows with an
out-of-view counterpart are dropped silently, producing no link and no
synthetic node — the node list is unchanged by relationship rows. -/
theorem C8_cluster_rel_scope (u : KG.Unit) (sts : List SubTheme) (ws : List ClusterWord)
    (rels : List Rel) :
    (∀ rel ∈ rels, rel.word_id_1 ∈ ws.map (fun w => w.id) →
      rel.word_id_2 ∈ ws.map (fun w => w.id) →
      clusterRelLink rel ∈ (buildClusterGraph u sts ws (some rels)).links) ∧
    (List.countP (fun l => l.source.isWord && l.target.isWord)
        (buildClusterGraph u sts ws (some rels)).links =
      List.countP (fun rel => decide (rel.word_id_1 ∈ ws.map (fun w => w.id)) &&
        decide (rel.word_id_2 ∈ ws.map (fun w => w.id))) rels) ∧
    (buildClusterGraph u sts ws (some rels)).nodes =
      (buildClusterGraph u sts ws none).nodes := by
  refine ⟨?_, ?_, rfl⟩
  · intro rel hrel h1 h2
    simp only [buildClusterGraph, List.mem_append]
    refine Or.inr ?_
    refine List.mem_map.mpr ⟨rel, List.mem_filter.mpr ⟨hrel, ?_⟩, rfl⟩
    have e1 : rel.word_id_1 ∈ (clusterWordPass
        (orStr u.color (orOpt (UNIT_COLORS u.code) "#888")) u.code [] ws).2.2 := by
      rw [clusterWordPass_seen]
      exact Or.inr h1
    have e2 : rel.word_id_2 ∈ (clusterWordPass
        (orStr u.color (orOpt (UNIT_COLORS u.code) "#888")) u.code [] ws).2.2 := by
      rw [clusterWordPass_seen]
      exact Or.inr h2
    simp [e1, e2]
  · simp only [buildClusterGraph]
    rw [List.countP_append, List.countP_append, clusterWordPass_links,
      List.countP_map, List.countP_map, List.countP_map]
    have hpred : (fun rel => decide (rel.word_id_1 ∈ (clusterWordPass
          (orStr u.color (orOpt (UNIT_COLORS u.code) "#888")) u.code [] ws).2.2) &&
        decide (rel.word_id_2 ∈ (clusterWordPass
          (orStr u.color (orOpt (UNIT_COLORS u.code) "#888")) u.code [] ws).2.2)) =
        (fun rel : Rel => decide (rel.word_id_1 ∈ ws.map (fun w => w.id)) &&
          decide (rel.word_id_2 ∈ ws.map (fun w => w.id))) := by
      funext rel
      have i1 : (rel.word_id_1 ∈ (clusterWordPass
          (orStr u.color (orOpt (UNIT_COLORS u.code) "#888")) u.code [] ws).2.2) ↔
          rel.word_id_1 ∈ ws.map (fun w => w.id) := by
        rw [clusterWordPass_seen]
        simp
      have i2 : (rel.word_id_2 ∈ (clusterWordPass
          (orStr u.color (orOpt (UNIT_COLORS u.code) "#888")) u.code [] ws).2.2) ↔
          rel.word_id_2 ∈ ws.map (fun w => w.id) := by
        rw [clusterWordPass_seen]
        simp
      rw [decide_eq_decide.mpr i1, decide_eq_decide.mpr i2]
    rw [hpred]
    simp [Function.comp_def, clusterWordLink, clusterRelLink]
    rw [← List.countP_eq_length_filter]

/-- Witness for C8: a relationship row whose both endpoints (100 and 101) are
items of the view is emitted as a link. -/
theorem C8_cluster_rel_scope_witness :
    clusterRelLink ⟨1, 100, 101, "opposite", 1⟩ ∈
      (buildClusterGraph ⟨"A", "Animals", "#E74C3C"⟩ [⟨10, "s1"⟩]
        [⟨100, "ا", none, none, 10⟩, ⟨101, "ب", none, none, 10⟩]
        (some [⟨1, 100, 101, "opposite", 1⟩])).links :=
  (C8_cluster_rel_scope ⟨"A", "Animals", "#E74C3C"⟩ [⟨10, "s1"⟩]
    [⟨100, "ا", none, none, 10⟩, ⟨101, "ب", none, none, 10⟩]
    [⟨1, 100, 101, "opposite", 1⟩]).1
    ⟨1, 100, 101, "opposite", 1⟩ (by simp) (by simp) (by simp)

/-- Claim C9: a Group (unit) node's size is monotonically non-decreasing in
its member word count and clamped to a fixed range, in both overview-level
builders: `buildGalaxyGraph` (range [30, 55]) and the second module's
`buildUnitOverviewGraph` (range [20, 50]). -/
theorem C9_size_monotone_clamped :
    (∀ (units : List KG.Unit) (wc : String → Option ℚ) (cls : List CrossUnitConnection),
      ∀ n ∈ (buildGalaxyGraph units wc cls).nodes, 30 ≤ n.size ∧ n.size ≤ 55) ∧
    (∀ (units : List KG.Unit) (wc : String → Option ℚ) (cls : List CrossUnitConnection),
      ∀ n₁ ∈ (buildGalaxyGraph units wc cls).nodes,
      ∀ n₂ ∈ (buildGalaxyGraph units wc cls).nodes,
      ∀ c₁ c₂ : ℚ, n₁.wordCount = some c₁ → n₂.wordCount = some c₂ → c₁ ≤ c₂ →
        n₁.size ≤ n₂.size) ∧
    (∀ (units : List KG.Unit) (wtc : String → Option ℚ),
      ∀ n ∈ (Overview.buildUnitOverviewGraph units wtc).nodes,
        20 ≤ n.size ∧ n.size ≤ 50) ∧
    (∀ (units : List KG.Unit) (wtc : String → Option ℚ) (i j : Nat)
      (hi : i < units.length) (hj : j < units.length)
      (hi2 : i < (Overview.buildUnitOverviewGraph units wtc).nodes.length)
      (hj2 : j < (Overview.buildUnitOverviewGraph units wtc).nodes.length),
      orNum (wtc (units.get ⟨i, hi⟩).code) 0 ≤ orNum (wtc (units.get ⟨j, hj⟩).code) 0 →
      ((Overview.buildUnitOverviewGraph units wtc).nodes.get ⟨i, hi2⟩).size ≤
        ((Overview.buildUnitOverviewGraph units wtc).nodes.get ⟨j, hj2⟩).size) := by
  refine ⟨?_, ?_, ?_, ?_⟩
  · intro units wc cls n hn
    simp only [buildGalaxyGraph] at hn
    rcases List.mem_map.mp hn with ⟨u, _, rfl⟩
    refine ⟨le_max_left _ _, max_le (by norm_num) (min_le_left _ _)⟩
  · intro units wc cls n₁ hn₁ n₂ hn₂ c₁ c₂ hc₁ hc₂ hle
    simp only [buildGalaxyGraph] at hn₁ hn₂
    rcases List.mem_map.mp hn₁ with ⟨u₁, _, rfl⟩
    rcases List.mem_map.mp hn₂ with ⟨u₂, _, rfl⟩
    simp only [Option.some.injEq] at hc₁ hc₂
    show max 30 (min 55 (30 + orNum (wc u₁.code) 0 / 8)) ≤
      max 30 (min 55 (30 + orNum (wc u₂.code) 0 / 8))
    rw [hc₁, hc₂]
    exact max_le_max (le_refl 30) (min_le_min (le_refl 55) (by linarith))
  · intro units wtc n hn
    simp only [Overview.buildUnitOverviewGraph] at hn
    rcases List.mem_map.mp hn with ⟨u, _, rfl⟩
    refine ⟨le_max_left _ _, max_le (by norm_num) (min_le_left _ _)⟩
  · intro units wtc i j hi hj hi2 hj2 hle
    simp only [Overview.buildUnitOverviewGraph, List.get_eq_getElem,
      List.getElem_map] at hi2 hj2 ⊢
    simp only [List.get_eq_getElem] at hle
    exact max_le_max (le_refl 20) (min_le_min (le_refl 50) (by linarith))

/-- Witness for C9 at a one-unit input with no recorded counts: the galaxy
node's size is within [30, 55], monotonicity holds reflexively, and the
overview node's size is within [20, 50]. -/
theorem C9_size_monotone_clamped_witness :
    (30 ≤ galaxyNodeEx.size ∧ galaxyNodeEx.size ≤ 55) ∧
    galaxyNodeEx.size ≤ galaxyNodeEx.size ∧
    (20 ≤ overviewNodeEx.size ∧ overviewNodeEx.size ≤ 50) ∧
    max 20 (min 50 (orNum none 0 / 2)) ≤ max 20 (min 50 (orNum none 0 / 2)) :=
  ⟨C9_size_monotone_clamped.1 [⟨"A", "Animals", "#E74C3C"⟩] (fun _ => none) []
      galaxyNodeEx (List.Mem.head _),
    C9_size_monotone_clamped.2.1 [⟨"A", "Animals", "#E74C3C"⟩] (fun _ => none) []
      galaxyNodeEx (List.Mem.head _) galaxyNodeEx (List.Mem.head _)
      (orNum none 0) (orNum none 0) rfl rfl (le_refl _),
    C9_size_monotone_clamped.2.2.1 [⟨"A", "Animals", "#E74C3C"⟩] (fun _ => none)
      overviewNodeEx (List.Mem.head _),
    C9_size_monotone_clamped.2.2.2 [⟨"A", "Animals", "#E74C3C"⟩] (fun _ => none)
      0 0 (by decide) (by decide) (by decide) (by decide) (le_refl _)⟩
